import Mathlib

/-!
Shallow embedding of the DEM viewer (`src/main.rs`) over a linearly ordered
field `α` standing in for `f32`.  Transcendental `f32` intrinsics
(`sin`, `cos`, `atan`, `atan2`, `sqrt`, `to_radians`) are abstracted as a
record of function parameters, so every statement about the hillshade
formula is proved for an arbitrary interpretation of those intrinsics and
in particular for their real-number meaning.
-/

namespace DemViewer

/-- Record of the `f32` transcendental intrinsics used by `generate_hillshade`.
`atan2 y x` models Rust's `y.atan2(x)`; `pi` models `std::f32::consts::PI`. -/
structure FloatOps (α : Type) where
  sin : α → α
  cos : α → α
  arctan : α → α
  atan2 : α → α → α
  sqrt : α → α
  pi : α

/-- Model of Rust `f32::to_radians`: `self * (PI / 180.0)`. -/
def FloatOps.toRadians {α : Type} [Field α] (F : FloatOps α) (deg : α) : α :=
  deg * (F.pi / 180)

variable {α : Type} [LinearOrderedField α] [FloorRing α]

/-- Model of the Rust cast `v as u8` applied to a float: the cast truncates
the fractional part and saturates into `[0, 255]` (negative values give `0`,
values at or above `255` give `255`). -/
def byteSat (r : α) : Nat := min 255 (Int.toNat ⌊r⌋)

/-- Model of Rust `f32::clamp(self, lo, hi)` (no NaN in the model). -/
def fclamp (r lo hi : α) : α := if r < lo then lo else if hi < r then hi else r

/-- Error taxonomy of the spec; the source only ever produces `formatError`
(from `?` on a failed header parse).  `panicked` models a Rust `panic!` /
`unwrap()` process abort, which is *not* a typed error result. -/
inductive DemError where
  | formatError
  | emptyData
  | dimensionMismatch
  | unknownMode
  deriving DecidableEq, Repr

/-- Outcome of a fallible piece of the program: a value, a typed error
(Rust `Err(_)` through `anyhow::Result`), or a process abort (Rust panic). -/
inductive RunResult (β : Type) where
  | ok (val : β)
  | err (e : DemError)
  | panicked (msg : String)
  deriving DecidableEq, Repr

/-- Sequencing of `RunResult` computations (models `?` on `Result` plus
panic propagation). -/
def bindR {β γ : Type} (r : RunResult β) (f : β → RunResult γ) : RunResult γ :=
  match r with
  | .ok a => f a
  | .err e => .err e
  | .panicked m => .panicked m

/-- A whitespace-separated token of the input file, remembering how it parses
as a `usize` (`asNat`) and as an `f32` (`asFloat`); `none` means the parse
fails. -/
structure Token (α : Type) where
  asNat : Option Nat
  asFloat : Option α

/-- Model of `lines.next().unwrap()?.split_whitespace().last().unwrap().parse::<usize>()?`
on line `i` of the file: a missing line or an empty line is an `unwrap`
panic, a failed integer parse is a typed error via `?`. -/
def headerNat (file : List (List (Token α))) (i : Nat) : RunResult Nat :=
  match file.get? i with
  | none => .panicked "called `Option::unwrap()` on a `None` value"
  | some line =>
    match line.getLast? with
    | none => .panicked "called `Option::unwrap()` on a `None` value"
    | some t =>
      match t.asNat with
      | none => .err .formatError
      | some n => .ok n

/-- Same as `headerNat` but the value parses as `f32` (the nodata header). -/
def headerFloat (file : List (List (Token α))) (i : Nat) : RunResult α :=
  match file.get? i with
  | none => .panicked "called `Option::unwrap()` on a `None` value"
  | some line =>
    match line.getLast? with
    | none => .panicked "called `Option::unwrap()` on a `None` value"
    | some t =>
      match t.asFloat with
      | none => .err .formatError
      | some v => .ok v

/-- Model of `read_asc_file`: lines 0 and 1 give `ncols`/`nrows`, lines 2-4
(xllcorner, yllcorner, cellsize) are consumed and ignored, line 5 gives the
nodata value, and every token of every remaining line is parsed as `f32`
with `val.parse().unwrap_or(nodata_value)` — a failed parse substitutes the
nodata value.  No count validation is performed. -/
def read_asc_file (file : List (List (Token α))) : RunResult (List α × Nat × Nat) :=
  bindR (headerNat file 0) fun ncols =>
  bindR (headerNat file 1) fun nrows =>
  bindR (headerFloat file 5) fun nodata_value =>
  .ok (((file.drop 6).flatten).map (fun t => t.asFloat.getD nodata_value), ncols, nrows)

/-- Valid samples: the source filters with `v != nodata_value` where each
mapper locally fixes `nodata_value = -99999.0`. -/
def validSamples (dem : List α) : List α := dem.filter (fun v => v ≠ -99999)

/-- Minimum of the valid samples.  The source folds `f32::min` starting from
`f32::INFINITY`; `List.minimum` is that fold with `⊤` for `+∞`.  `α` has no
infinities, so the empty case is collapsed with an arbitrary default: it is
consulted by no output byte, because a non-sentinel cell forces the valid
list to be non-empty. -/
def demMin (dem : List α) : α := (validSamples dem).minimum.untop' 0

/-- Maximum of the valid samples (source: fold of `f32::max` from
`f32::NEG_INFINITY`); same remark on the empty default as `demMin`. -/
def demMax (dem : List α) : α := (validSamples dem).maximum.unbot' 0

/-- Body of `dem_to_grayscale`: one byte per cell, `0` for the sentinel,
otherwise `((v - min) * scale).clamp(0.0, 255.0) as u8` with
`scale = 255.0 / (max - min)`. -/
def grayImage (dem : List α) : List Nat :=
  let nodata : α := -99999
  let mn := demMin dem
  let mx := demMax dem
  let scale := 255 / (mx - mn)
  dem.map (fun v => if v = nodata then 0 else byteSat (fclamp ((v - mn) * scale) 0 255))

/-- Model of `dem_to_grayscale`: the Rust function returns
`anyhow::Result<Vec<u8>>` but has no failing path — it always returns `Ok`. -/
def dem_to_grayscale (dem : List α) : RunResult (List Nat) := .ok (grayImage dem)

/-- One cell of `dem_to_color_image`: `[0,0,0]` for the sentinel, otherwise
the gradient at `(v - min) / (max - min)` with each channel scaled by
`* 255.0` and cast `as u8`.  The gradient (`colorgrad::turbo()`) is an
external lookup, abstracted as a function parameter. -/
def colorCell (grad : α → α × α × α) (mn mx v : α) : List Nat :=
  if v = -99999 then [0, 0, 0]
  else
    let norm := (v - mn) / (mx - mn)
    let c := grad norm
    [byteSat (c.1 * 255), byteSat (c.2.1 * 255), byteSat (c.2.2 * 255)]

/-- Body of `dem_to_color_image`: three bytes per cell, in cell order. -/
def colorImage (grad : α → α × α × α) (dem : List α) : List Nat :=
  dem.flatMap (colorCell grad (demMin dem) (demMax dem))

/-- Model of `dem_to_color_image`: returns `anyhow::Result<Vec<u8>>` but has
no failing path (`width`/`height` are only used for buffer capacity). -/
def dem_to_color_image (grad : α → α × α × α) (dem : List α)
    (width height : Nat) : RunResult (List Nat) := .ok (colorImage grad dem)

/-- Value written by `generate_hillshade` for the cell `(x, y)` of the
interior double loop: the 3×3 Horn kernel around the center, the
`1 - atan(slope)` illumination formula of the source, and the `as u8` cast
of `shade * 255.0`.  A sentinel center produces `0`. -/
def hillshadeAt (F : FloatOps α) (dem : List α) (width height x y : Nat) : Nat :=
  let scale : α := 1
  let azimuth := F.toRadians 315
  let altitude := F.toRadians 45
  let nodata : α := -99999
  let center_idx := y * width + x
  let get : Int → Int → α := fun dx dy =>
    let nx : Int := (x : Int) + dx
    let ny : Int := (y : Int) + dy
    if nx < 0 ∨ ny < 0 ∨ (width : Int) ≤ nx ∨ (height : Int) ≤ ny then nodata
    else dem.getD (ny.toNat * width + nx.toNat) 0
  let dzdx := ((get 1 (-1) + 2 * get 1 0 + get 1 1) -
               (get (-1) (-1) + 2 * get (-1) 0 + get (-1) 1)) / (8 * scale)
  let dzdy := ((get (-1) 1 + 2 * get 0 1 + get 1 1) -
               (get (-1) (-1) + 2 * get 0 (-1) + get 1 (-1))) / (8 * scale)
  if dem.getD center_idx 0 = nodata then 0
  else
    let slope := F.sqrt (dzdx ^ 2 + dzdy ^ 2)
    let aspect := F.atan2 dzdy (-dzdx)
    let shade := max (F.sin altitude * F.cos (1 - F.arctan slope) +
                      F.cos altitude * F.sin (1 - F.arctan slope) *
                      F.cos (azimuth - aspect)) 0
    byteSat (shade * 255)

/-- Interior cells visited by the double loop
`for y in 1..height-1 { for x in 1..width-1 { ... } }`, in loop order,
as `(x, y)` pairs. -/
def interiorPairs (width height : Nat) : List (Nat × Nat) :=
  (List.range' 1 (height - 2)).flatMap fun y =>
    (List.range' 1 (width - 2)).map fun x => (x, y)

/-- Model of `generate_hillshade`: the buffer starts as
`vec![0u8; width * height]` and the double loop writes
`image[y * width + x]` for every interior cell. -/
def generate_hillshade (F : FloatOps α) (dem : List α) (width height : Nat) :
    List Nat :=
  (interiorPairs width height).foldl
    (fun image p => image.set (p.2 * width + p.1) (hillshadeAt F dem width height p.1 p.2))
    (List.replicate (width * height) 0)

/-- Model of `rgb.chunks(3)`: full 3-chunks, with a final shorter chunk when
the length is not a multiple of 3. -/
def toChunks3 : List Nat → List (List Nat)
  | [] => []
  | a :: b :: c :: rest => [a, b, c] :: toChunks3 rest
  | rest => [rest]

/-- Model of `blend_with_hillshade`: `rgb.chunks(3).zip(shade.iter())`
(so the shorter operand truncates the longer) and per channel
`(c as f32 * (s as f32 / 255.0)) as u8`.  The function is total: it never
reports a size mismatch. -/
def blend_with_hillshade (rgb shade : List Nat) : List Nat :=
  ((toChunks3 rgb).zip shade).flatMap fun cs =>
    cs.1.map fun c => byteSat ((c : α) * ((cs.2 : α) / 255))

/-- Pixel buffer handed to the display collaborator: 1-channel (`mono8`) or
3-channel (`rgb8`) bytes with the advertised dimensions. -/
inductive RenderedImage where
  | mono (bytes : List Nat) (width height : Nat)
  | rgb (bytes : List Nat) (width height : Nat)
  deriving DecidableEq, Repr

/-- Model of the `match mode.as_str()` dispatch in `main`: the four known
modes build an image; any other string hits
`_ => panic!("Unknown mode. ...")`, a process abort rather than a typed
error. -/
def renderMode (F : FloatOps α) (grad : α → α × α × α) (dem : List α)
    (ncols nrows : Nat) (mode : String) : RunResult RenderedImage :=
  match mode with
  | "grayscale" => bindR (dem_to_grayscale dem) fun g => .ok (.mono g ncols nrows)
  | "hillshade" => .ok (.mono (generate_hillshade F dem ncols nrows) ncols nrows)
  | "color" => bindR (dem_to_color_image grad dem ncols nrows) fun c =>
      .ok (.rgb c ncols nrows)
  | "color+hillshade" => bindR (dem_to_color_image grad dem ncols nrows) fun c =>
      .ok (.rgb (blend_with_hillshade (α := α) c (generate_hillshade F dem ncols nrows)) ncols nrows)
  | _ => .panicked "Unknown mode. Use grayscale, color, hillshade, or color+hillshade"

/-- Arbitrary interpretation of the float intrinsics over `ℚ`, used to
instantiate universally quantified statements at concrete inputs. -/
def ratOps : FloatOps ℚ where
  sin := fun x => x
  cos := fun x => x
  arctan := fun x => x
  atan2 := fun y x => y + x
  sqrt := fun x => x
  pi := 3

/-- Modelled from the claim text (spec section 4.5), not from the source:
the expected hillshade byte of an interior cell, written over the eight
neighbour elevations N/S/E/W/NE/NW/SE/SW of the row-major grid, with
`dzdx = ((NE + 2E + SE) - (NW + 2W + SW))/8`,
`dzdy = ((SW + 2S + SE) - (NW + 2N + NE))/8`,
`slope_mag = sqrt(dzdx^2 + dzdy^2)`, `aspect = atan2(dzdy, -dzdx)` and
`shade = max(0, sin(alt)·cos(1 - atan slope_mag) +
cos(alt)·sin(1 - atan slope_mag)·cos(az - aspect))` for azimuth 315° and
altitude 45° in radians; the byte is the `as u8` cast of `shade * 255`. -/
def specShadeByte (F : FloatOps α) (dem : List α) (w x y : Nat) : Nat :=
  let NW := dem.getD ((y - 1) * w + (x - 1)) 0
  let N := dem.getD ((y - 1) * w + x) 0
  let NE := dem.getD ((y - 1) * w + (x + 1)) 0
  let W := dem.getD (y * w + (x - 1)) 0
  let E := dem.getD (y * w + (x + 1)) 0
  let SW := dem.getD ((y + 1) * w + (x - 1)) 0
  let S := dem.getD ((y + 1) * w + x) 0
  let SE := dem.getD ((y + 1) * w + (x + 1)) 0
  let dzdx := ((NE + 2 * E + SE) - (NW + 2 * W + SW)) / 8
  let dzdy := ((SW + 2 * S + SE) - (NW + 2 * N + NE)) / 8
  let slope_mag := F.sqrt (dzdx ^ 2 + dzdy ^ 2)
  let aspect := F.atan2 dzdy (-dzdx)
  let shade := max 0 (F.sin (F.toRadians 45) * F.cos (1 - F.arctan slope_mag) +
    F.cos (F.toRadians 45) * F.sin (1 - F.arctan slope_mag) *
    F.cos (F.toRadians 315 - aspect))
  byteSat (shade * 255)

/-! Claim-side formulas and small evaluation helpers. -/

/-- Modelled from the claim text for the grayscale mapper, with the
truncating byte conversion: `trunc(clamp((v - min) * 255 / (max - min), 0, 255))`. -/
def specGrayByte (mn mx v : α) : Nat :=
  min 255 (Int.toNat ⌊fclamp ((v - mn) * 255 / (mx - mn)) 0 255⌋)

/-- Modelled from the claim text for the grayscale mapper as literally
stated: `round(clamp((v - min) * 255 / (max - min), 0, 255))`. -/
def specGrayByteRound (mn mx v : α) : Int :=
  round (fclamp ((v - mn) * 255 / (mx - mn)) 0 255)

/-! Concrete test fixtures used by closed statements. -/

/-- A token such as "7" that parses both as `usize` and as `f32`. -/
def tokNat (n : Nat) : Token ℚ := ⟨some n, some n⟩

/-- A token such as "-99999.0" that parses as `f32` but not as `usize`. -/
def tokFloat (q : ℚ) : Token ℚ := ⟨none, some q⟩

/-- A token such as "abc" that parses neither as `usize` nor as `f32`. -/
def tokJunk : Token ℚ := ⟨none, none⟩

/-- A 2-column 3-row header whose body contains a junk token followed by a
numeric one. -/
def sampleFile : List (List (Token ℚ)) :=
  [[tokNat 2], [tokNat 3], [tokNat 0], [tokNat 0], [tokNat 0],
   [tokFloat (-99999)], [tokJunk, tokNat 7]]

/-- A file declaring a 2×2 grid whose body holds only three tokens. -/
def fileC4 : List (List (Token ℚ)) :=
  [[tokNat 2], [tokNat 2], [tokNat 0], [tokNat 0], [tokNat 0],
   [tokFloat (-99999)], [tokNat 1, tokNat 1, tokNat 1]]

/-! Helper lemmas about the write loop of `generate_hillshade`. -/

/-- Row-major encoding is injective when both column indices are in range. -/
lemma encode_inj {w x₁ y₁ x₂ y₂ : Nat} (h₁ : x₁ < w) (h₂ : x₂ < w)
    (h : y₁ * w + x₁ = y₂ * w + x₂) : x₁ = x₂ ∧ y₁ = y₂ := by
  have hx : x₁ = x₂ := by
    have hc : w * y₁ + x₁ = w * y₂ + x₂ := by
      rw [Nat.mul_comm w y₁, Nat.mul_comm w y₂]; exact h
    have hm := congrArg (· % w) hc
    simpa [Nat.mul_add_mod, Nat.mod_eq_of_lt h₁, Nat.mod_eq_of_lt h₂] using hm
  subst hx
  have hw : 0 < w := Nat.pos_of_ne_zero (by omega)
  exact ⟨rfl, Nat.eq_of_mul_eq_mul_right hw (by omega)⟩

/-- Row-major index bound. -/
lemma encode_lt {w h x y : Nat} (hx : x < w) (hy : y < h) : y * w + x < w * h := by
  have h1 : y * w + x < (y + 1) * w := by
    have : (y + 1) * w = y * w + w := by ring
    omega
  have h2 : (y + 1) * w ≤ h * w := Nat.mul_le_mul_right w (by omega)
  have h3 : w * h = h * w := Nat.mul_comm w h
  omega

/-- Writing cells does not change the buffer length. -/
lemma length_foldl_set (val : Nat × Nat → Nat) (w : Nat) (l : List (Nat × Nat))
    (img : List Nat) :
    (l.foldl (fun im p => im.set (p.2 * w + p.1) (val p)) img).length = img.length := by
  induction l generalizing img with
  | nil => rfl
  | cons a t ih => simp only [List.foldl_cons, ih, List.length_set]

/-- A cell that the loop never writes keeps its initial value. -/
lemma foldl_set_getElem?_of_not_mem (val : Nat × Nat → Nat) (w : Nat)
    (l : List (Nat × Nat)) (img : List Nat) (j : Nat) :
    (∀ p ∈ l, p.2 * w + p.1 ≠ j) →
    (l.foldl (fun im p => im.set (p.2 * w + p.1) (val p)) img)[j]? = img[j]? := by
  induction l generalizing img with
  | nil => intro _; rfl
  | cons a t ih =>
    intro h
    rw [List.foldl_cons, ih _ (fun p hp => h p (List.mem_cons_of_mem _ hp)),
      List.getElem?_set_ne (h a (List.mem_cons_self _ _))]

/-- A cell written exactly once (the write positions are pairwise distinct
because the loop list has no duplicates and the encoding is injective)
ends up holding the written value. -/
lemma foldl_set_getElem?_of_mem (val : Nat × Nat → Nat) (w : Nat)
    (l : List (Nat × Nat)) (img : List Nat) (p₀ : Nat × Nat) :
    p₀ ∈ l → l.Nodup → (∀ p ∈ l, p.1 < w) → p₀.2 * w + p₀.1 < img.length →
    (l.foldl (fun im p => im.set (p.2 * w + p.1) (val p)) img)[p₀.2 * w + p₀.1]? =
      some (val p₀) := by
  induction l generalizing img with
  | nil => intro hmem; cases hmem
  | cons a t ih =>
    intro hmem hnd hxw hlen
    rw [List.foldl_cons]
    rcases List.mem_cons.1 hmem with rfl | hmem'
    · have hnotin : p₀ ∉ t := (List.nodup_cons.1 hnd).1
      have hne : ∀ p ∈ t, p.2 * w + p.1 ≠ p₀.2 * w + p₀.1 := by
        intro p hp hEq
        have hpq := encode_inj (hxw p (List.mem_cons_of_mem _ hp))
          (hxw p₀ (List.mem_cons_self _ _)) hEq
        have hpp : p = p₀ := Prod.ext hpq.1 hpq.2
        exact hnotin (hpp ▸ hp)
      rw [foldl_set_getElem?_of_not_mem val w t _ _ hne,
        List.getElem?_set_self hlen]
    · exact ih _ hmem' (List.nodup_cons.1 hnd).2
        (fun p hp => hxw p (List.mem_cons_of_mem _ hp))
        (by simpa [List.length_set] using hlen)

/-- Membership in the interior loop list. -/
lemma mem_interiorPairs {w h x y : Nat} :
    (x, y) ∈ interiorPairs w h ↔ 1 ≤ x ∧ x < w - 1 ∧ 1 ≤ y ∧ y < h - 1 := by
  simp only [interiorPairs, List.mem_flatMap, List.mem_map, List.mem_range'_1,
    Prod.mk.injEq]
  constructor
  · rintro ⟨y', ⟨hy1, hy2⟩, x', ⟨hx1, hx2⟩, rfl, rfl⟩
    omega
  · rintro ⟨hx1, hx2, hy1, hy2⟩
    exact ⟨y, ⟨hy1, by omega⟩, x, ⟨hx1, by omega⟩, rfl, rfl⟩

/-- The loop visits each interior cell exactly once. -/
lemma interiorPairs_nodup (w h : Nat) : (interiorPairs w h).Nodup := by
  rw [interiorPairs, List.nodup_flatMap]
  constructor
  · intro y _
    exact (List.nodup_range' _ _).map (fun a b hab => congrArg Prod.fst hab)
  · refine List.Pairwise.imp ?_ (List.pairwise_lt_range' _ _)
    intro a b hab z hza hzb
    simp only [List.mem_map] at hza hzb
    obtain ⟨xa, _, rfl⟩ := hza
    obtain ⟨xb, _, hEq⟩ := hzb
    exact absurd (congrArg Prod.snd hEq) (by simp; omega)

/-- Every visited cell has its column index below the width. -/
lemma interiorPairs_fst_lt {w h : Nat} : ∀ p ∈ interiorPairs w h, p.1 < w := by
  rintro ⟨px, py⟩ hp
  obtain ⟨hx1, hx2, hy1, hy2⟩ := mem_interiorPairs.1 hp
  omega

/-- Buffer length of the hillshade image. -/
lemma generate_hillshade_length (F : FloatOps α) (dem : List α) (w h : Nat) :
    (generate_hillshade F dem w h).length = w * h := by
  rw [generate_hillshade,
    length_foldl_set (fun p => hillshadeAt F dem w h p.1 p.2) w]
  simp

/-- Border cells are never written and keep the initial `0`. -/
lemma generate_hillshade_border (F : FloatOps α) (dem : List α) {w h x y : Nat}
    (hx : x < w) (hy : y < h)
    (hb : x = 0 ∨ y = 0 ∨ x = w - 1 ∨ y = h - 1) :
    (generate_hillshade F dem w h)[y * w + x]? = some 0 := by
  have hne : ∀ p ∈ interiorPairs w h, p.2 * w + p.1 ≠ y * w + x := by
    rintro ⟨px, py⟩ hp hEq
    obtain ⟨hx1, hx2, hy1, hy2⟩ := mem_interiorPairs.1 hp
    obtain ⟨rfl, rfl⟩ := encode_inj (by omega) hx hEq
    omega
  rw [generate_hillshade,
    foldl_set_getElem?_of_not_mem (fun p => hillshadeAt F dem w h p.1 p.2) w _ _ _ hne]
  exact List.getElem?_replicate_of_lt (encode_lt hx hy)

/-- Interior cells hold the value computed by the loop body. -/
lemma generate_hillshade_interior (F : FloatOps α) (dem : List α) {w h x y : Nat}
    (hx1 : 1 ≤ x) (hx2 : x < w - 1) (hy1 : 1 ≤ y) (hy2 : y < h - 1) :
    (generate_hillshade F dem w h)[y * w + x]? = some (hillshadeAt F dem w h x y) := by
  rw [generate_hillshade]
  exact foldl_set_getElem?_of_mem
    (fun p => hillshadeAt F dem w h p.1 p.2) w
    (interiorPairs w h) (List.replicate (w * h) 0) (x, y)
    (mem_interiorPairs.2 ⟨hx1, hx2, hy1, hy2⟩) (interiorPairs_nodup w h)
    interiorPairs_fst_lt
    (by simpa using encode_lt (show x < w by omega) (show y < h by omega))

/-- Loop-body value at an interior, non-sentinel cell: the bounds checks of
the `get` closure never fire, so the value is the Horn-kernel shade formula
over the eight neighbours. -/
lemma hillshadeAt_interior (F : FloatOps α) (dem : List α) {w h x y : Nat}
    (hx1 : 1 ≤ x) (hx2 : x < w - 1) (hy1 : 1 ≤ y) (hy2 : y < h - 1)
    (hc : dem.getD (y * w + x) 0 ≠ -99999) :
    hillshadeAt F dem w h x y = specShadeByte F dem w x y := by
  have hxt1 : ((x : Int) + -1).toNat = x - 1 := by omega
  have hxt2 : ((x : Int) + 0).toNat = x := by omega
  have hxt3 : ((x : Int) + 1).toNat = x + 1 := by omega
  have hyt1 : ((y : Int) + -1).toNat = y - 1 := by omega
  have hyt2 : ((y : Int) + 0).toNat = y := by omega
  have hyt3 : ((y : Int) + 1).toNat = y + 1 := by omega
  have hb1 : ¬((x : Int) + 1 < 0 ∨ (y : Int) + -1 < 0 ∨
      (w : Int) ≤ (x : Int) + 1 ∨ (h : Int) ≤ (y : Int) + -1) := by omega
  have hb2 : ¬((x : Int) + 1 < 0 ∨ (y : Int) + 0 < 0 ∨
      (w : Int) ≤ (x : Int) + 1 ∨ (h : Int) ≤ (y : Int) + 0) := by omega
  have hb3 : ¬((x : Int) + 1 < 0 ∨ (y : Int) + 1 < 0 ∨
      (w : Int) ≤ (x : Int) + 1 ∨ (h : Int) ≤ (y : Int) + 1) := by omega
  have hb4 : ¬((x : Int) + -1 < 0 ∨ (y : Int) + -1 < 0 ∨
      (w : Int) ≤ (x : Int) + -1 ∨ (h : Int) ≤ (y : Int) + -1) := by omega
  have hb5 : ¬((x : Int) + -1 < 0 ∨ (y : Int) + 0 < 0 ∨
      (w : Int) ≤ (x : Int) + -1 ∨ (h : Int) ≤ (y : Int) + 0) := by omega
  have hb6 : ¬((x : Int) + -1 < 0 ∨ (y : Int) + 1 < 0 ∨
      (w : Int) ≤ (x : Int) + -1 ∨ (h : Int) ≤ (y : Int) + 1) := by omega
  have hb7 : ¬((x : Int) + 0 < 0 ∨ (y : Int) + 1 < 0 ∨
      (w : Int) ≤ (x : Int) + 0 ∨ (h : Int) ≤ (y : Int) + 1) := by omega
  have hb8 : ¬((x : Int) + 0 < 0 ∨ (y : Int) + -1 < 0 ∨
      (w : Int) ≤ (x : Int) + 0 ∨ (h : Int) ≤ (y : Int) + -1) := by omega
  simp only [hillshadeAt, specShadeByte]
  rw [if_neg hc]
  simp only [if_neg hb1, if_neg hb2, if_neg hb3, if_neg hb4, if_neg hb5,
    if_neg hb6, if_neg hb7, if_neg hb8, hxt1, hxt2, hxt3, hyt1, hyt2, hyt3,
    mul_one]
  rw [max_comm]

/-! Helper lemmas about the valid-sample statistics. -/

/-- Membership in the filtered valid-sample list. -/
lemma mem_validSamples {dem : List α} {v : α} :
    v ∈ validSamples dem ↔ v ∈ dem ∧ v ≠ -99999 := by
  simp [validSamples]

/-- A single non-sentinel sample makes the valid list non-empty. -/
lemma validSamples_ne_nil {dem : List α} {v : α} (hv : v ∈ dem)
    (hn : v ≠ -99999) : validSamples dem ≠ [] := by
  intro h0
  have hmem : v ∈ validSamples dem := mem_validSamples.2 ⟨hv, hn⟩
  rw [h0] at hmem
  exact absurd hmem (List.not_mem_nil v)

/-- With at least one valid sample, `demMin` is an attained lower bound of
the valid samples. -/
lemma demMin_spec {dem : List α} (hne : validSamples dem ≠ []) :
    demMin dem ∈ validSamples dem ∧ ∀ u ∈ validSamples dem, demMin dem ≤ u := by
  obtain ⟨mn, hmn⟩ :=
    WithTop.ne_top_iff_exists.1 (List.minimum_ne_top_of_ne_nil hne)
  have hv : demMin dem = mn := by rw [demMin, ← hmn, WithTop.untop'_coe]
  rw [hv]
  exact ⟨List.minimum_mem hmn.symm,
    fun u hu => List.minimum_le_of_mem hu hmn.symm⟩

/-- With at least one valid sample, `demMax` is an attained upper bound of
the valid samples. -/
lemma demMax_spec {dem : List α} (hne : validSamples dem ≠ []) :
    demMax dem ∈ validSamples dem ∧ ∀ u ∈ validSamples dem, u ≤ demMax dem := by
  obtain ⟨mx, hmx⟩ :=
    WithBot.ne_bot_iff_exists.1 (List.maximum_ne_bot_of_ne_nil hne)
  have hv : demMax dem = mx := by rw [demMax, ← hmx, WithBot.unbot'_coe]
  rw [hv]
  exact ⟨List.maximum_mem hmx.symm,
    fun u hu => List.le_maximum_of_mem hu hmx.symm⟩

/-- The attained minimum is itself a non-sentinel value. -/
lemma demMin_ne_nodata {dem : List α} (hne : validSamples dem ≠ []) :
    demMin dem ≠ -99999 :=
  (mem_validSamples.1 (demMin_spec hne).1).2

/-- The attained maximum is itself a non-sentinel value. -/
lemma demMax_ne_nodata {dem : List α} (hne : validSamples dem ≠ []) :
    demMax dem ≠ -99999 :=
  (mem_validSamples.1 (demMax_spec hne).1).2

/-- Pointwise description of the grayscale buffer. -/
lemma grayImage_getElem? (dem : List α) (i : Nat) (v : α) (hv : dem[i]? = some v) :
    (grayImage dem)[i]? = some (if v = -99999 then 0 else
      byteSat (fclamp ((v - demMin dem) * (255 / (demMax dem - demMin dem))) 0 255)) := by
  simp only [grayImage, List.getElem?_map, hv, Option.map_some']

/-- The grayscale buffer has one byte per cell. -/
lemma grayImage_length (dem : List α) : (grayImage dem).length = dem.length := by
  simp [grayImage]

/-! Helper lemmas about the compositor. -/

/-- Unfolding of one full colour cell zipped with one intensity cell. -/
lemma blend_cons (a b c : Nat) (t : List Nat) (s : Nat) (st : List Nat) :
    blend_with_hillshade (α := α) (a :: b :: c :: t) (s :: st) =
      byteSat ((a : α) * ((s : α) / 255)) :: byteSat ((b : α) * ((s : α) / 255)) ::
      byteSat ((c : α) * ((s : α) / 255)) :: blend_with_hillshade (α := α) t st := by
  simp [blend_with_hillshade, toChunks3]

/-- Output size of the compositor on a well-formed colour buffer: the zip
truncates to the shorter operand and never reports a mismatch. -/
lemma blend_length (n : Nat) (rgb shade : List Nat) : rgb.length = 3 * n →
    (blend_with_hillshade (α := α) rgb shade).length = 3 * min n shade.length := by
  induction n generalizing rgb shade with
  | zero =>
    intro hl
    have hnil : rgb = [] := List.length_eq_zero.1 (by omega)
    subst hnil
    simp [blend_with_hillshade, toChunks3]
  | succ n ih =>
    intro hl
    rcases rgb with _ | ⟨a, _ | ⟨b, _ | ⟨c, t⟩⟩⟩ <;> simp only [List.length_cons,
      List.length_nil] at hl
    · omega
    · omega
    · omega
    · cases shade with
      | nil => simp [blend_with_hillshade, toChunks3]
      | cons s st =>
        rw [blend_cons]
        simp only [List.length_cons]
        rw [ih t st (by omega)]
        omega

/-! Helper lemmas about the parser. -/

/-- When the three consulted header lines parse, `read_asc_file` succeeds
and returns exactly the substituted body tokens. -/
lemma read_asc_ok {file : List (List (Token α))} {nc nr : Nat} {nd : α}
    (h0 : headerNat file 0 = .ok nc) (h1 : headerNat file 1 = .ok nr)
    (h5 : headerFloat file 5 = .ok nd) :
    read_asc_file file =
      .ok (((file.drop 6).flatten).map (fun t => t.asFloat.getD nd), nc, nr) := by
  simp [read_asc_file, h0, h1, h5, bindR]

/-- Conversely, a successful parse always returns the substituted body
tokens for the parsed nodata value. -/
lemma read_asc_ok_inv {file : List (List (Token α))} {data : List α}
    {nc nr : Nat} (h : read_asc_file file = .ok (data, nc, nr)) :
    ∃ nd, headerFloat file 5 = .ok nd ∧
      data = ((file.drop 6).flatten).map (fun t => t.asFloat.getD nd) := by
  simp only [read_asc_file] at h
  cases e0 : headerNat file 0 <;> rw [e0] at h <;> simp only [bindR] at h
  case err => cases h
  case panicked => cases h
  case ok nc' =>
  cases e1 : headerNat file 1 <;> rw [e1] at h <;> simp only [bindR] at h
  case err => cases h
  case panicked => cases h
  case ok nr' =>
  cases e5 : headerFloat file 5 <;> rw [e5] at h <;> simp only [bindR] at h
  case err => cases h
  case panicked => cases h
  case ok nd =>
  refine ⟨nd, rfl, ?_⟩
  injection h with h'
  exact (congrArg Prod.fst h').symm

/-- Clamping inside the band is the identity. -/
lemma fclamp_of_le {r lo hi : α} (h1 : lo ≤ r) (h2 : r ≤ hi) :
    fclamp r lo hi = r := by
  rw [fclamp, if_neg (not_lt.2 h1), if_neg (not_lt.2 h2)]

/-- Byte cast of `0`. -/
lemma byteSat_zero : byteSat (0 : α) = 0 := by
  simp [byteSat, Int.floor_zero]

/-- Byte cast of `255`. -/
lemma byteSat_255 : byteSat (255 : α) = 255 := by
  simp [byteSat]

/-- Indexing a `flatMap` whose blocks all have length 3. -/
lemma flatMap3_getElem? {β : Type} (f : α → List β) (hf : ∀ u, (f u).length = 3)
    (dem : List α) (i : Nat) (v : α) (hv : dem[i]? = some v) (j : Nat)
    (hj : j < 3) : (dem.flatMap f)[3 * i + j]? = (f v)[j]? := by
  induction dem generalizing i with
  | nil => simp at hv
  | cons a t ih =>
    rw [List.flatMap_cons]
    cases i with
    | zero =>
      rw [List.getElem?_cons_zero] at hv
      injection hv with hv
      subst hv
      rw [Nat.mul_zero, Nat.zero_add, List.getElem?_append_left (by rw [hf]; omega)]
    | succ i' =>
      rw [List.getElem?_cons_succ] at hv
      rw [List.getElem?_append_right (by rw [hf]; omega)]
      have harith : 3 * (i' + 1) + j - (f a).length = 3 * i' + j := by
        rw [hf]; omega
      rw [harith]
      exact ih i' hv

/-! Claim theorems. -/

/-- C1: for every grid and every interior cell (`1 ≤ x < width - 1`,
`1 ≤ y < height - 1`) whose centre elevation is not the sentinel, the
hillshade output byte equals the `as u8` cast of `shade * 255`, where
`dzdx`, `dzdy` are the /8 Horn kernel combinations of the eight neighbour
elevations, `slope_mag = sqrt(dzdx² + dzdy²)`, `aspect = atan2(dzdy, -dzdx)`
and `shade = max(0, sin(alt)·cos(1 - atan slope_mag) +
cos(alt)·sin(1 - atan slope_mag)·cos(az - aspect))` with azimuth 315° and
altitude 45° in radians (see `specShadeByte`). -/
theorem claim_C1 (F : FloatOps α) (dem : List α) (w h x y : Nat)
    (hlen : dem.length = w * h)
    (hx1 : 1 ≤ x) (hx2 : x < w - 1) (hy1 : 1 ≤ y) (hy2 : y < h - 1)
    (hc : dem.getD (y * w + x) 0 ≠ -99999) :
    (generate_hillshade F dem w h)[y * w + x]? = some (specShadeByte F dem w x y) := by
  rw [generate_hillshade_interior F dem hx1 hx2 hy1 hy2,
    hillshadeAt_interior F dem hx1 hx2 hy1 hy2 hc]

/-- Witness for C1 on a concrete 3×3 grid at its centre cell. -/
theorem claim_C1_witness :
    ([1, 2, 3, 4, 5, 6, 7, 8, 9] : List ℚ).length = 3 * 3 ∧
    (1 : Nat) ≤ 1 ∧ 1 < 3 - 1 ∧
    ([1, 2, 3, 4, 5, 6, 7, 8, 9] : List ℚ).getD (1 * 3 + 1) 0 ≠ -99999 ∧
    (generate_hillshade ratOps [1, 2, 3, 4, 5, 6, 7, 8, 9] 3 3)[1 * 3 + 1]? =
      some (specShadeByte ratOps [1, 2, 3, 4, 5, 6, 7, 8, 9] 3 1 1) :=
  ⟨by decide, by decide, by decide, by decide,
    claim_C1 ratOps [1, 2, 3, 4, 5, 6, 7, 8, 9] 3 3 1 1 (by decide) (by decide)
      (by decide) (by decide) (by decide) (by decide)⟩

/-- C6: for every grid with positive dimensions, every border cell of the
hillshade output (`x = 0`, `y = 0`, `x = width - 1` or `y = height - 1`)
holds the byte `0`. -/
theorem claim_C6 (F : FloatOps α) (dem : List α) (w h x y : Nat)
    (hlen : dem.length = w * h) (hw : 1 ≤ w) (hh : 1 ≤ h)
    (hx : x < w) (hy : y < h)
    (hb : x = 0 ∨ y = 0 ∨ x = w - 1 ∨ y = h - 1) :
    (generate_hillshade F dem w h)[y * w + x]? = some 0 :=
  generate_hillshade_border F dem hx hy hb

/-- Witness for C6 on a concrete 1×1 grid at its only (border) cell. -/
theorem claim_C6_witness :
    ([3] : List ℚ).length = 1 * 1 ∧ (1 : Nat) ≤ 1 ∧ (0 : Nat) < 1 ∧
    ((0 : Nat) = 0 ∨ (0 : Nat) = 0 ∨ (0 : Nat) = 1 - 1 ∨ (0 : Nat) = 1 - 1) ∧
    (generate_hillshade ratOps [3] 1 1)[0 * 1 + 0]? = some 0 :=
  ⟨by decide, by decide, by decide, by decide,
    claim_C6 ratOps [3] 1 1 0 0 (by decide) (by decide) (by decide) (by decide)
      (by decide) (by decide)⟩

/-- C7: whenever the three consulted header lines parse (so the parse does
not already abort in the header), the parser succeeds no matter what the
body tokens are, substituting the parsed nodata value for every body token
that fails to parse as a float; a junk body token never causes a failure. -/
theorem claim_C7 (file : List (List (Token α))) (nc nr : Nat) (nd : α)
    (h0 : headerNat file 0 = .ok nc) (h1 : headerNat file 1 = .ok nr)
    (h5 : headerFloat file 5 = .ok nd) :
    read_asc_file file =
      .ok (((file.drop 6).flatten).map (fun t => t.asFloat.getD nd), nc, nr) ∧
    ∀ (k : Nat) (t : Token α), ((file.drop 6).flatten)[k]? = some t → t.asFloat = none →
      (((file.drop 6).flatten).map (fun t => t.asFloat.getD nd))[k]? = some nd := by
  refine ⟨read_asc_ok h0 h1 h5, ?_⟩
  intro k t hk hnone
  rw [List.getElem?_map, hk, Option.map_some']
  simp [hnone]

/-- Witness for C7 on a concrete file whose body holds a junk token. -/
theorem claim_C7_witness :
    headerNat sampleFile 0 = .ok 2 ∧ headerNat sampleFile 1 = .ok 3 ∧
    headerFloat sampleFile 5 = .ok (-99999) ∧
    (read_asc_file sampleFile =
      .ok (((sampleFile.drop 6).flatten).map (fun t => t.asFloat.getD (-99999)), 2, 3) ∧
     ∀ (k : Nat) (t : Token ℚ), ((sampleFile.drop 6).flatten)[k]? = some t → t.asFloat = none →
      (((sampleFile.drop 6).flatten).map (fun t => t.asFloat.getD (-99999)))[k]? =
        some (-99999)) :=
  ⟨by decide, by decide, by decide,
    claim_C7 sampleFile 2 3 (-99999) (by decide) (by decide) (by decide)⟩

/-- C5: for every grid with at least one non-sentinel sample and
`max > min`, the grayscale mapper outputs `0` for every sentinel cell, `0`
for a cell achieving the minimum and `255` for a cell achieving the
maximum. -/
theorem claim_C5 (dem : List α) (v₀ : α) (hv₀ : v₀ ∈ dem)
    (hv₀n : v₀ ≠ -99999) (hlt : demMin dem < demMax dem) :
    dem_to_grayscale dem = .ok (grayImage dem) ∧
    ∀ (i : Nat) (v : α), dem[i]? = some v →
      (v = -99999 → (grayImage dem)[i]? = some 0) ∧
      (v = demMin dem → (grayImage dem)[i]? = some 0) ∧
      (v = demMax dem → (grayImage dem)[i]? = some 255) := by
  have hne := validSamples_ne_nil hv₀ hv₀n
  refine ⟨rfl, ?_⟩
  intro i v hv
  have hbase := grayImage_getElem? dem i v hv
  refine ⟨?_, ?_, ?_⟩
  · intro hv99
    rw [hbase, if_pos hv99]
  · intro hmin
    subst hmin
    rw [hbase, if_neg (demMin_ne_nodata hne), sub_self, zero_mul,
      fclamp_of_le le_rfl (by norm_num : (0 : α) ≤ 255), byteSat_zero]
  · intro hmax
    subst hmax
    have hne0 : demMax dem - demMin dem ≠ 0 := sub_ne_zero.2 (ne_of_gt hlt)
    rw [hbase, if_neg (demMax_ne_nodata hne), mul_comm,
      div_mul_cancel₀ (255 : α) hne0,
      fclamp_of_le (by norm_num : (0 : α) ≤ 255) le_rfl, byteSat_255]

/-- Witness for C5 on the grid `[1, 5, 9]`. -/
theorem claim_C5_witness :
    (1 : ℚ) ∈ ([1, 5, 9] : List ℚ) ∧ (1 : ℚ) ≠ -99999 ∧
    demMin (α := ℚ) [1, 5, 9] < demMax (α := ℚ) [1, 5, 9] ∧
    (dem_to_grayscale (α := ℚ) [1, 5, 9] = .ok (grayImage (α := ℚ) [1, 5, 9]) ∧
     ∀ (i : Nat) (v : ℚ), ([1, 5, 9] : List ℚ)[i]? = some v →
       (v = -99999 → (grayImage (α := ℚ) [1, 5, 9])[i]? = some 0) ∧
       (v = demMin (α := ℚ) [1, 5, 9] →
         (grayImage (α := ℚ) [1, 5, 9])[i]? = some 0) ∧
       (v = demMax (α := ℚ) [1, 5, 9] →
         (grayImage (α := ℚ) [1, 5, 9])[i]? = some 255)) :=
  ⟨by decide, by decide, by decide,
    claim_C5 [1, 5, 9] 1 (by decide) (by decide) (by decide)⟩

/-- Evaluation of the minimum on the concrete grid `[1, 5, 9]`. -/
lemma demMin_159 : demMin (α := ℚ) [1, 5, 9] = 1 := by decide

/-- Evaluation of the maximum on the concrete grid `[1, 5, 9]`. -/
lemma demMax_159 : demMax (α := ℚ) [1, 5, 9] = 9 := by decide

/-- C2 (amended): for every grid with at least one non-sentinel sample and
`max > min`, the grayscale mapper produces exactly one byte per cell: `0`
for sentinel cells and, for every other cell, the *truncation* (Rust
`as u8`, not rounding) of `clamp((v - min) * 255 / (max - min), 0, 255)`. -/
theorem claim_C2 (dem : List α) (v₀ : α) (hv₀ : v₀ ∈ dem)
    (hv₀n : v₀ ≠ -99999) (hlt : demMin dem < demMax dem) :
    dem_to_grayscale dem = .ok (grayImage dem) ∧
    (grayImage dem).length = dem.length ∧
    ∀ (i : Nat) (v : α), dem[i]? = some v →
      (grayImage dem)[i]? = some (if v = -99999 then 0 else
        specGrayByte (demMin dem) (demMax dem) v) := by
  refine ⟨rfl, grayImage_length dem, ?_⟩
  intro i v hv
  rw [grayImage_getElem? dem i v hv]
  by_cases hcase : v = -99999
  · rw [if_pos hcase, if_pos hcase]
  · rw [if_neg hcase, if_neg hcase]
    simp only [specGrayByte, byteSat]
    rw [mul_div_assoc]

/-- Witness for C2 (amended) on the grid `[1, 5, 9]`. -/
theorem claim_C2_witness :
    (1 : ℚ) ∈ ([1, 5, 9] : List ℚ) ∧ (1 : ℚ) ≠ -99999 ∧
    demMin (α := ℚ) [1, 5, 9] < demMax (α := ℚ) [1, 5, 9] ∧
    (dem_to_grayscale (α := ℚ) [1, 5, 9] = .ok (grayImage (α := ℚ) [1, 5, 9]) ∧
     (grayImage (α := ℚ) [1, 5, 9]).length = ([1, 5, 9] : List ℚ).length ∧
     ∀ (i : Nat) (v : ℚ), ([1, 5, 9] : List ℚ)[i]? = some v →
       (grayImage (α := ℚ) [1, 5, 9])[i]? = some (if v = -99999 then 0 else
         specGrayByte (demMin (α := ℚ) [1, 5, 9]) (demMax (α := ℚ) [1, 5, 9]) v)) :=
  ⟨by decide, by decide, by decide,
    claim_C2 [1, 5, 9] 1 (by decide) (by decide) (by decide)⟩

/-- Counterexample to C2 as stated: on the grid `[1, 5, 9]` (min 1, max 9,
no sentinel cells) the cell with elevation 5 yields the code byte 127 — the
truncation of `(5-1)·255/8 = 127.5` — while the claimed formula
`round(clamp((v - min)·255/(max - min), 0, 255))` demands 128. -/
theorem claim_C2_counterexample :
    (grayImage (α := ℚ) [1, 5, 9])[1]? = some 127 ∧
    specGrayByteRound (demMin (α := ℚ) [1, 5, 9]) (demMax (α := ℚ) [1, 5, 9]) 5 = 128 ∧
    ¬ ((grayImage (α := ℚ) [1, 5, 9])[1]? = some (Int.toNat
        (specGrayByteRound (demMin (α := ℚ) [1, 5, 9]) (demMax (α := ℚ) [1, 5, 9]) 5))) := by
  have hval : ((5 : ℚ) - 1) * (255 / (9 - 1)) = 255 / 2 := by norm_num
  have h1 : (grayImage (α := ℚ) [1, 5, 9])[1]? = some 127 := by
    rw [grayImage_getElem? ([1, 5, 9] : List ℚ) 1 5 (by decide),
      if_neg (by norm_num), demMin_159, demMax_159, hval,
      fclamp_of_le (by norm_num) (by norm_num), byteSat]
    have hfl : ⌊(255 / 2 : ℚ)⌋ = 127 := by
      rw [Int.floor_eq_iff]
      constructor <;> norm_num
    rw [hfl]
    decide
  have h2 : specGrayByteRound (demMin (α := ℚ) [1, 5, 9])
      (demMax (α := ℚ) [1, 5, 9]) 5 = 128 := by
    rw [specGrayByteRound, demMin_159, demMax_159]
    have hval' : ((5 : ℚ) - 1) * 255 / (9 - 1) = 255 / 2 := by norm_num
    rw [hval', fclamp_of_le (by norm_num) (by norm_num), round_eq]
    have hsum : (255 / 2 : ℚ) + 1 / 2 = 128 := by norm_num
    rw [hsum]
    simp
  refine ⟨h1, h2, ?_⟩
  rw [h1, h2]
  decide

/-- Mapping a function that sends the sentinel to `0` over an all-sentinel
list yields an all-zero list. -/
lemma map_all_sentinel {f : α → Nat} (hf : f (-99999) = 0) :
    ∀ l : List α, (∀ v ∈ l, v = -99999) →
      l.map f = List.replicate l.length 0 := by
  intro l
  induction l with
  | nil => intro _; rfl
  | cons a t ih =>
    intro hall
    have ha : a = -99999 := hall a (List.mem_cons_self _ _)
    rw [List.map_cons, ha, hf, List.length_cons, List.replicate_succ,
      ih (fun v hv => hall v (List.mem_cons_of_mem _ hv))]

/-- Flat-mapping a function that sends the sentinel to `[0, 0, 0]` over an
all-sentinel list yields an all-zero list of three bytes per cell. -/
lemma flatMap_all_sentinel {f : α → List Nat} (hf : f (-99999) = [0, 0, 0]) :
    ∀ l : List α, (∀ v ∈ l, v = -99999) →
      l.flatMap f = List.replicate (3 * l.length) 0 := by
  intro l
  induction l with
  | nil => intro _; rfl
  | cons a t ih =>
    intro hall
    have ha : a = -99999 := hall a (List.mem_cons_self _ _)
    rw [List.flatMap_cons, ha, hf,
      ih (fun v hv => hall v (List.mem_cons_of_mem _ hv)), List.length_cons,
      show 3 * (t.length + 1) = 3 + 3 * t.length from by ring,
      List.replicate_add]
    rfl

/-- C3 (amended): on a grid in which every sample equals the sentinel, the
statistics computation does not fail — no `EmptyDataError` exists in the
code — and the grayscale and colour mappers return `Ok` buffers that are
all zero (the fixed sentinel rendering), so no undefined bytes are
produced. -/
theorem claim_C3 (grad : α → α × α × α) (dem : List α) (w h : Nat)
    (hall : ∀ v ∈ dem, v = -99999) :
    dem_to_grayscale dem = .ok (List.replicate dem.length 0) ∧
    dem_to_color_image grad dem w h = .ok (List.replicate (3 * dem.length) 0) := by
  constructor
  · rw [dem_to_grayscale]
    congr 1
    rw [grayImage]
    exact map_all_sentinel (by simp) dem hall
  · rw [dem_to_color_image]
    congr 1
    rw [colorImage]
    exact flatMap_all_sentinel (by simp [colorCell]) dem hall

/-- Witness for C3 (amended) on the all-sentinel grid `[-99999, -99999]`. -/
theorem claim_C3_witness :
    (∀ v ∈ ([-99999, -99999] : List ℚ), v = -99999) ∧
    (dem_to_grayscale (α := ℚ) [-99999, -99999] =
      .ok (List.replicate ([-99999, -99999] : List ℚ).length 0) ∧
     dem_to_color_image (fun _ => ((1 : ℚ), 1, 1)) [-99999, -99999] 2 1 =
      .ok (List.replicate (3 * ([-99999, -99999] : List ℚ).length) 0)) :=
  ⟨by decide, claim_C3 (fun _ => ((1 : ℚ), 1, 1)) [-99999, -99999] 2 1 (by decide)⟩

/-- Counterexample to C3 as stated: on the all-sentinel grid
`[-99999, -99999]` neither mapper fails — both return `Ok` buffers (of
zeros); no `EmptyDataError` is surfaced to the caller. -/
theorem claim_C3_counterexample :
    dem_to_grayscale (α := ℚ) [-99999, -99999] = .ok [0, 0] ∧
    dem_to_color_image (fun _ => ((0 : ℚ), 0, 0)) [-99999, -99999] 2 1 =
      .ok [0, 0, 0, 0, 0, 0] := by
  constructor <;> decide

/-- C4 (amended): a successful parse returns one sample per body token: the
data length equals the total number of tokens in the lines after the
header, which the parser never checks against `ncols * nrows`. -/
theorem claim_C4 (file : List (List (Token α))) (data : List α) (nc nr : Nat)
    (h : read_asc_file file = .ok (data, nc, nr)) :
    data.length = ((file.drop 6).flatten).length := by
  obtain ⟨nd, -, hdata⟩ := read_asc_ok_inv h
  rw [hdata, List.length_map]

/-- Witness for C4 (amended) on a concrete file. -/
theorem claim_C4_witness :
    read_asc_file sampleFile =
      .ok (((sampleFile.drop 6).flatten).map (fun t => t.asFloat.getD (-99999)), 2, 3) ∧
    (((sampleFile.drop 6).flatten).map (fun t => t.asFloat.getD (-99999))).length =
      ((sampleFile.drop 6).flatten).length :=
  ⟨by decide, claim_C4 sampleFile
    (((sampleFile.drop 6).flatten).map (fun t => t.asFloat.getD (-99999))) 2 3 (by decide)⟩

/-- Counterexample to C4 as stated: a file declaring `ncols = 2, nrows = 2`
whose body holds three tokens parses successfully and returns three
samples, not `ncols * nrows = 4`. -/
theorem claim_C4_counterexample :
    read_asc_file fileC4 = .ok ([1, 1, 1], 2, 2) ∧
    ¬ (([1, 1, 1] : List ℚ).length = 2 * 2) := by
  constructor <;> decide

/-- C8 (amended): the compositor never fails and reports no size mismatch:
it zips the colour 3-chunks with the intensity cells, silently ignoring the
excess of either operand, so a well-formed colour buffer of `n` cells gives
`3 * min n (number of intensity cells)` output bytes, each channel being
the `as u8` cast of `c * (s / 255)`. -/
theorem claim_C8 (rgb shade : List Nat) (n : Nat) (hl : rgb.length = 3 * n) :
    (blend_with_hillshade (α := α) rgb shade).length = 3 * min n shade.length ∧
    ∀ (a b c s : Nat) (t st : List Nat),
      blend_with_hillshade (α := α) (a :: b :: c :: t) (s :: st) =
        byteSat ((a : α) * ((s : α) / 255)) ::
        byteSat ((b : α) * ((s : α) / 255)) ::
        byteSat ((c : α) * ((s : α) / 255)) ::
        blend_with_hillshade (α := α) t st :=
  ⟨blend_length n rgb shade hl, fun a b c s t st => blend_cons a b c t s st⟩

/-- Witness for C8 (amended): two colour cells against one intensity cell. -/
theorem claim_C8_witness :
    ([10, 20, 30, 40, 50, 60] : List Nat).length = 3 * 2 ∧
    ((blend_with_hillshade (α := ℚ) [10, 20, 30, 40, 50, 60] [255]).length =
      3 * min 2 ([255] : List Nat).length ∧
     ∀ (a b c s : Nat) (t st : List Nat),
       blend_with_hillshade (α := ℚ) (a :: b :: c :: t) (s :: st) =
         byteSat ((a : ℚ) * ((s : ℚ) / 255)) ::
         byteSat ((b : ℚ) * ((s : ℚ) / 255)) ::
         byteSat ((c : ℚ) * ((s : ℚ) / 255)) ::
         blend_with_hillshade (α := ℚ) t st) :=
  ⟨by decide, claim_C8 [10, 20, 30, 40, 50, 60] [255] 2 (by decide)⟩

/-- Counterexample to C8 as stated: with six colour bytes (two cells) and a
single intensity cell — a mismatched pair — the compositor produces the
output buffer `[10, 20, 30]` instead of failing with a
`DimensionMismatchError`. -/
theorem claim_C8_counterexample :
    blend_with_hillshade (α := ℚ) [10, 20, 30, 40, 50, 60] [255] = [10, 20, 30] := by
  rw [blend_cons]
  norm_num [byteSat, blend_with_hillshade, toChunks3]
  decide

/-- C9 (amended): every mode string other than the four selectors reaches
the `panic!` arm of the dispatch: the process aborts with the unknown-mode
message instead of returning a typed error to the caller. -/
theorem claim_C9 (F : FloatOps α) (grad : α → α × α × α) (dem : List α)
    (nc nr : Nat) (mode : String)
    (h1 : mode ≠ "grayscale") (h2 : mode ≠ "hillshade") (h3 : mode ≠ "color")
    (h4 : mode ≠ "color+hillshade") :
    renderMode F grad dem nc nr mode =
      .panicked "Unknown mode. Use grayscale, color, hillshade, or color+hillshade" := by
  unfold renderMode
  split <;> simp_all

/-- Witness for C9 (amended) at the unknown mode string "mystery". -/
theorem claim_C9_witness :
    ("mystery" ≠ "grayscale") ∧ ("mystery" ≠ "hillshade") ∧
    ("mystery" ≠ "color") ∧ ("mystery" ≠ "color+hillshade") ∧
    renderMode ratOps (fun _ => ((1 : ℚ), 1, 1)) [] 1 1 "mystery" =
      .panicked "Unknown mode. Use grayscale, color, hillshade, or color+hillshade" :=
  ⟨by decide, by decide, by decide, by decide,
    claim_C9 ratOps (fun _ => ((1 : ℚ), 1, 1)) [] 1 1 "mystery" (by decide)
      (by decide) (by decide) (by decide)⟩

/-- Counterexample to C9 as stated: the mode string "foo" produces the
`panic!` process abort, not a typed error result. -/
theorem claim_C9_counterexample :
    renderMode ratOps (fun _ => ((0 : ℚ), 0, 0)) [] 0 0 "foo" =
      .panicked "Unknown mode. Use grayscale, color, hillshade, or color+hillshade" := by
  decide

/-- C10: the grayscale, colour and hillshade mappers compare elevations
against the fixed constant `-99999.0`, not against the no-data value parsed
from the file header (none of them even receives it — see their
signatures).  Consequently, for any value `d ≠ -99999` — in particular a
different declared header no-data value — cells equal to `d` are kept by
the statistics filter and rendered through the ordinary valid-cell
formulas of all three mappers. -/
theorem claim_C10 (d : α) (hd : d ≠ -99999) :
    (∀ (dem : List α) (i : Nat), dem[i]? = some d → d ∈ validSamples dem) ∧
    (∀ (dem : List α) (i : Nat), dem[i]? = some d →
      (grayImage dem)[i]? = some (byteSat (fclamp ((d - demMin dem) *
        (255 / (demMax dem - demMin dem))) 0 255))) ∧
    (∀ (grad : α → α × α × α) (dem : List α) (i : Nat), dem[i]? = some d →
      colorCell grad (demMin dem) (demMax dem) d =
        [byteSat ((grad ((d - demMin dem) / (demMax dem - demMin dem))).1 * 255),
         byteSat ((grad ((d - demMin dem) / (demMax dem - demMin dem))).2.1 * 255),
         byteSat ((grad ((d - demMin dem) / (demMax dem - demMin dem))).2.2 * 255)] ∧
      ∀ j : Nat, j < 3 → (colorImage grad dem)[3 * i + j]? =
        (colorCell grad (demMin dem) (demMax dem) d)[j]?) ∧
    (∀ (F : FloatOps α) (dem : List α) (w h x y : Nat),
      1 ≤ x → x < w - 1 → 1 ≤ y → y < h - 1 → dem.getD (y * w + x) 0 = d →
      (generate_hillshade F dem w h)[y * w + x]? =
        some (specShadeByte F dem w x y)) := by
  refine ⟨?_, ?_, ?_, ?_⟩
  · intro dem i hv
    exact mem_validSamples.2 ⟨List.getElem?_mem hv, hd⟩
  · intro dem i hv
    rw [grayImage_getElem? dem i d hv, if_neg hd]
  · intro grad dem i hv
    constructor
    · simp only [colorCell, if_neg hd]
    · intro j hj
      rw [colorImage]
      exact flatMap3_getElem? (colorCell grad (demMin dem) (demMax dem))
        (fun u => by by_cases hu : u = -99999 <;> simp [colorCell, hu])
        dem i d hv j hj
  · intro F dem w h x y hx1 hx2 hy1 hy2 hc
    rw [generate_hillshade_interior F dem hx1 hx2 hy1 hy2,
      hillshadeAt_interior F dem hx1 hx2 hy1 hy2 (by rw [hc]; exact hd)]

/-- Witness for C10 at the concrete value `d = 42`. -/
theorem claim_C10_witness :
    ((42 : ℚ) ≠ -99999) ∧
    ((∀ (dem : List ℚ) (i : Nat), dem[i]? = some 42 → (42 : ℚ) ∈ validSamples dem) ∧
     (∀ (dem : List ℚ) (i : Nat), dem[i]? = some 42 →
       (grayImage dem)[i]? = some (byteSat (fclamp (((42 : ℚ) - demMin dem) *
         (255 / (demMax dem - demMin dem))) 0 255))) ∧
     (∀ (grad : ℚ → ℚ × ℚ × ℚ) (dem : List ℚ) (i : Nat), dem[i]? = some 42 →
       colorCell grad (demMin dem) (demMax dem) 42 =
         [byteSat ((grad (((42 : ℚ) - demMin dem) / (demMax dem - demMin dem))).1 * 255),
          byteSat ((grad (((42 : ℚ) - demMin dem) / (demMax dem - demMin dem))).2.1 * 255),
          byteSat ((grad (((42 : ℚ) - demMin dem) / (demMax dem - demMin dem))).2.2 * 255)] ∧
       ∀ j : Nat, j < 3 → (colorImage grad dem)[3 * i + j]? =
         (colorCell grad (demMin dem) (demMax dem) 42)[j]?) ∧
     (∀ (F : FloatOps ℚ) (dem : List ℚ) (w h x y : Nat),
       1 ≤ x → x < w - 1 → 1 ≤ y → y < h - 1 → dem.getD (y * w + x) 0 = 42 →
       (generate_hillshade F dem w h)[y * w + x]? =
         some (specShadeByte F dem w x y))) :=
  ⟨by decide, claim_C10 42 (by decide)⟩

end DemViewer
